import Mathlib

/-!
Verification of the wine-recognition backend's core pipeline:
the response normalizer (`RapidAPIClient._parse_candidates`),
the retrying dispatcher (`RapidAPIClient._call_with_retry`) and
the recognition endpoints (`recognize_file` / `recognize_url` in `app/api.py`).

JSON values are embedded as the inductive `JValue`; Python's dynamic
attribute/iteration/truthiness semantics are made explicit, and code paths
that raise a Python exception are modelled in the `Except PyErr` monad.
Numeric confidences are represented with `ℚ`.
-/

/-- Python exceptions that parsing of the provider envelope can raise:
`.get`/`.lower`/`.strip` on a value of the wrong type raise `AttributeError`,
iterating a non-iterable raises `TypeError`, and constructing a pydantic
`WineCandidate` with an out-of-range confidence raises a `ValidationError`. -/
inductive PyErr where
  | attributeError
  | typeError
  | validationError
deriving Repr, DecidableEq

/-- A JSON value, as decoded by `response.json()`. Objects keep key order
(Python dicts preserve insertion order); keys are assumed distinct. -/
inductive JValue where
  | null
  | bool (b : Bool)
  | num (q : ℚ)
  | str (s : String)
  | arr (xs : List JValue)
  | obj (kvs : List (String × JValue))

/-- First-match association-list lookup (Python `dict` access). -/
def lookupKey : List (String × JValue) → String → Option JValue
  | [], _ => none
  | (k, v) :: kvs, key => if k = key then some v else lookupKey kvs key

/-- Python `x.get(key, default)`: only dicts have `.get`; on any other value
it raises `AttributeError`. -/
def pyGet (v : JValue) (key : String) (dflt : JValue) : Except PyErr JValue :=
  match v with
  | .obj kvs => .ok ((lookupKey kvs key).getD dflt)
  | _ => .error .attributeError

/-- Python iteration (`for x in v`): lists yield their elements, dicts yield
their keys (as strings), strings yield their characters; other values raise
`TypeError`. -/
def pyIter : JValue → Except PyErr (List JValue)
  | .arr xs => .ok xs
  | .obj kvs => .ok (kvs.map fun kv => JValue.str kv.1)
  | .str s => .ok (s.data.map fun c => JValue.str (String.mk [c]))
  | _ => .error .typeError

/-- Python truthiness of a JSON value. -/
def pyTruthy : JValue → Bool
  | .null => false
  | .bool b => b
  | .num q => decide (q ≠ 0)
  | .str s => !s.isEmpty
  | .arr xs => !xs.isEmpty
  | .obj kvs => !kvs.isEmpty

/-- Python `s.strip()`: remove leading and trailing whitespace. -/
def pyStrip (s : String) : String :=
  String.mk (((s.data.dropWhile Char.isWhitespace).reverse.dropWhile
    Char.isWhitespace).reverse)

/-- Python `s.lower()` (ASCII case folding, which covers the status codes
compared against `{"ok", "success", ""}`). -/
def pyLower (s : String) : String :=
  String.mk (s.data.map Char.toLower)

/-- Sum a list of decimal digits into a natural number. -/
def natOfDigits (cs : List Char) : Nat :=
  cs.foldl (fun n c => 10 * n + (c.toNat - 48)) 0

/-- Python `float(s)` on a string, restricted to plain decimal literals
(optional sign, digits, optional fractional part, surrounding whitespace).
Other accepted Python forms (exponents, `inf`, `nan`) are treated as
unparseable; no property proved below depends on a string score. -/
def pyFloatOfString (s : String) : Option ℚ :=
  let t := (pyStrip s).data
  let sign : ℚ := if t.head? = some '-' then -1 else 1
  let body := if t.head? = some '-' ∨ t.head? = some '+' then t.tail else t
  let intPart := body.takeWhile (fun c => c ≠ '.')
  match body.dropWhile (fun c => c ≠ '.') with
  | [] =>
      if 0 < intPart.length && intPart.all Char.isDigit then
        some (sign * (natOfDigits intPart : ℚ))
      else none
  | _ :: frac =>
      if (0 < intPart.length + frac.length) && intPart.all Char.isDigit &&
          frac.all Char.isDigit then
        some (sign * ((natOfDigits intPart : ℚ) +
          (natOfDigits frac : ℚ) / (10 : ℚ) ^ frac.length))
      else none

/-- Python `float(v)` coercion; `none` stands for a raised
`TypeError`/`ValueError`, both of which the caller catches. -/
def pyFloat : JValue → Option ℚ
  | .num q => some q
  | .bool b => some (if b then 1 else 0)
  | .str s => pyFloatOfString s
  | _ => none

/-- `WineCandidate` (pydantic model in `app/schemas.py`): a label with a
confidence constrained to `[0, 1]` by field validators. -/
structure WineCandidate where
  label : String
  confidence : ℚ
deriving Repr, DecidableEq

/-- Construct a `WineCandidate`; pydantic raises a `ValidationError` when the
confidence is outside `[0, 1]`. -/
def mkWineCandidate (label : String) (confidence : ℚ) : Except PyErr WineCandidate :=
  if 0 ≤ confidence ∧ confidence ≤ 1 then .ok ⟨label, confidence⟩
  else .error .validationError

/-- Descending order on confidences (`c₁` may come before `c₂`). -/
def confGe (a b : WineCandidate) : Prop := b.confidence ≤ a.confidence

instance : DecidableRel confGe :=
  fun a b => inferInstanceAs (Decidable (b.confidence ≤ a.confidence))

instance : IsTotal WineCandidate confGe :=
  ⟨fun a b => le_total b.confidence a.confidence⟩

instance : IsTrans WineCandidate confGe :=
  ⟨fun _ _ _ h1 h2 => le_trans h2 h1⟩

/-- Python's `sorted(candidates, key=lambda c: c.confidence, reverse=True)`:
a stable sort by confidence descending. Insertion sort is extensionally the
unique stable sort for a total preorder. -/
def sortDesc (l : List WineCandidate) : List WineCandidate :=
  List.insertionSort confGe l

/-- One iteration of the inner `for cls in classes` loop of
`_parse_candidates`: non-dict entries are skipped; the label is
`(cls.get("class") or "").strip()` (raising `AttributeError` on a truthy
non-string), the score is `float(cls.get("score") or 0.0)` with coercion
failures defaulting to `0.0`; empty labels are dropped, and otherwise a
pydantic `WineCandidate` is constructed. -/
def parseClassEntry (cls : JValue) : Except PyErr (Option WineCandidate) :=
  match cls with
  | .obj kvs =>
    let labelRaw := (lookupKey kvs "class").getD .null
    let labelOr := if pyTruthy labelRaw then labelRaw else .str ""
    match labelOr with
    | .str s =>
      let label := pyStrip s
      let scoreRaw := (lookupKey kvs "score").getD .null
      let scoreOr := if pyTruthy scoreRaw then scoreRaw else .num 0
      let confidence := (pyFloat scoreOr).getD 0
      if label.isEmpty then .ok none
      else
        match mkWineCandidate label confidence with
        | .ok c => .ok (some c)
        | .error e => .error e
    | _ => .error .attributeError
  | _ => .ok none

/-- The `for cls in classes` loop, in encounter order. -/
def parseClasses : List JValue → Except PyErr (List WineCandidate)
  | [] => .ok []
  | cls :: rest =>
    match parseClassEntry cls with
    | .error e => .error e
    | .ok c? =>
      match parseClasses rest with
      | .error e => .error e
      | .ok cs => .ok (match c? with | some c => c :: cs | none => cs)

/-- One iteration of the `for entity in entities` loop:
`classes = entity.get("classes", [])` then iterate it. -/
def parseEntity (entity : JValue) : Except PyErr (List WineCandidate) :=
  match pyGet entity "classes" (.arr []) with
  | .error e => .error e
  | .ok classes =>
    match pyIter classes with
    | .error e => .error e
    | .ok items => parseClasses items

/-- The `for entity in entities` loop, concatenating in encounter order. -/
def parseEntities : List JValue → Except PyErr (List WineCandidate)
  | [] => .ok []
  | e :: rest =>
    match parseEntity e with
    | .error err => .error err
    | .ok cs =>
      match parseEntities rest with
      | .error err => .error err
      | .ok rest' => .ok (cs ++ rest')

/-- Status codes accepted by the per-result check (after lowercasing). -/
def acceptedCodes : List String := ["ok", "success", ""]

/-- One iteration of the `for result in results` loop:
`status = result.get("status", {})`; skip the whole result when
`status.get("code", "").lower()` is not accepted, otherwise process
`result.get("entities", [])`. -/
def parseResult (result : JValue) : Except PyErr (List WineCandidate) :=
  match pyGet result "status" (.obj []) with
  | .error e => .error e
  | .ok status =>
    match pyGet status "code" (.str "") with
    | .error e => .error e
    | .ok (.str code) =>
      if pyLower code ∈ acceptedCodes then
        match pyGet result "entities" (.arr []) with
        | .error e => .error e
        | .ok entities =>
          match pyIter entities with
          | .error e => .error e
          | .ok items => parseEntities items
      else .ok []
    | .ok _ => .error .attributeError

/-- The `for result in results` loop, concatenating in encounter order. -/
def parseResults : List JValue → Except PyErr (List WineCandidate)
  | [] => .ok []
  | r :: rest =>
    match parseResult r with
    | .error err => .error err
    | .ok cs =>
      match parseResults rest with
      | .error err => .error err
      | .ok rest' => .ok (cs ++ rest')

/-- The candidates collected by `_parse_candidates` before the final sort,
in encounter order: `raw.get("results", [])`, then the nested loops. -/
def collectCandidates (raw : JValue) : Except PyErr (List WineCandidate) :=
  match pyGet raw "results" (.arr []) with
  | .error e => .error e
  | .ok results =>
    match pyIter results with
    | .error e => .error e
    | .ok items => parseResults items

/-- `RapidAPIClient._parse_candidates`: collect, then
`sorted(candidates, key=lambda c: c.confidence, reverse=True)`. -/
def parseCandidates (raw : JValue) : Except PyErr (List WineCandidate) :=
  (collectCandidates raw).map sortDesc

/-- Decidable equality for `Except` results (not provided by the library). -/
instance {ε α : Type} [DecidableEq ε] [DecidableEq α] : DecidableEq (Except ε α) :=
  fun a b =>
    match a, b with
    | .error e, .error f =>
      if h : e = f then .isTrue (by rw [h]) else .isFalse (by simp [h])
    | .error _, .ok _ => .isFalse (by simp)
    | .ok _, .error _ => .isFalse (by simp)
    | .ok x, .ok y =>
      if h : x = y then .isTrue (by rw [h]) else .isFalse (by simp [h])

/- ── Retrying dispatcher (`RapidAPIClient._call_with_retry`) ──────────────── -/

/-- What a single HTTP attempt can yield, as seen by `_call_with_retry`:
an HTTP response with a status code and (for JSON bodies) the decoded value
(`none` models a body that `response.json()` rejects), a timeout
(`httpx.TimeoutException`), or a connection error (`httpx.RequestError`). -/
inductive AttemptOutcome where
  | response (status : Nat) (body : Option JValue)
  | timeout
  | connError

/-- Classification of a raised `RapidAPIError`: the constructor records which
raise site produced it, and `status` keeps the numeric upstream code. -/
inductive RapidAPIError where
  | status (code : Nat)
  | invalidJson
  | notObject
  | timeout
  | transport
  | exhausted
deriving Repr, DecidableEq

/-- What `_call_with_retry` can raise: a `RapidAPIError`, or a Python
exception escaping from `_parse_candidates`. -/
inductive DispatchError where
  | api (e : RapidAPIError)
  | py (e : PyErr)
deriving Repr, DecidableEq

/-- `_RETRYABLE_STATUS_CODES`. -/
def retryableStatusCodes : List Nat := [429, 500, 502, 503, 504]

/-- Whether a JSON value is an object (`isinstance(raw, dict)`). -/
def JValue.isObj : JValue → Bool
  | .obj _ => true
  | _ => false

/-- One execution of the `for attempt in range(1, attempts + 1)` loop body of
`_call_with_retry`, with `fuel` bounding the remaining iterations
(`fuel = attempts - attempt + 1` at every call). Returns the result together
with the number of attempts actually performed. -/
def callWithRetryAux (attemptFn : Nat → AttemptOutcome) (attempts : Nat) :
    Nat → Nat → Option RapidAPIError →
    Except DispatchError (List WineCandidate × JValue) × Nat
  | 0, attempt, lastExc =>
      (.error (.api (lastExc.getD .exhausted)), attempt - 1)
  | fuel + 1, attempt, lastExc =>
    match attemptFn attempt with
    | .response status body =>
      if status = 200 then
        match body with
        | none => (.error (.api .invalidJson), attempt)
        | some raw =>
          if raw.isObj then
            match parseCandidates raw with
            | .ok cs => (.ok (cs, raw), attempt)
            | .error e => (.error (.py e), attempt)
          else (.error (.api .notObject), attempt)
      else if status ∈ retryableStatusCodes ∧ attempt < attempts then
        callWithRetryAux attemptFn attempts fuel (attempt + 1)
          (some (.status status))
      else (.error (.api (.status status)), attempt)
    | .timeout =>
      if attempt = attempts then (.error (.api .timeout), attempt)
      else callWithRetryAux attemptFn attempts fuel (attempt + 1) (some .timeout)
    | .connError =>
      if attempt = attempts then (.error (.api .transport), attempt)
      else callWithRetryAux attemptFn attempts fuel (attempt + 1) (some .transport)

/-- `_call_with_retry`: `attempts = max_retries + 1` total attempts, starting
at attempt 1 with no recorded error. `attemptFn n` is the outcome of the
`n`-th HTTP attempt. -/
def callWithRetry (attemptFn : Nat → AttemptOutcome) (maxRetries : Nat) :
    Except DispatchError (List WineCandidate × JValue) × Nat :=
  callWithRetryAux attemptFn (maxRetries + 1) (maxRetries + 1) 1 none

/-- `True` for outcomes the dispatcher classifies as transient: a status in
`_RETRYABLE_STATUS_CODES`, a timeout, or a connection error. -/
def isRetryableOutcome : AttemptOutcome → Bool
  | .response s _ => decide (s ∈ retryableStatusCodes)
  | .timeout => true
  | .connError => true

/-- The terminal `RapidAPIError` the dispatcher surfaces when the given
outcome happens on the final attempt. -/
def lastAttemptError : AttemptOutcome → RapidAPIError
  | .response s _ => .status s
  | .timeout => .timeout
  | .connError => .transport

/- ── Recognition endpoints (`app/api.py`) ─────────────────────────────────── -/

/-- The configuration the endpoints read (`app/config.py` defaults:
`max_top_k = 10`, `results_dir = "results"`). -/
structure Settings where
  max_top_k : Nat
  results_dir : String
deriving Repr

/-- `RecognizeResponse` (`app/schemas.py`). `elapsed_ms` is a rational
abstraction of the float field. -/
structure RecognizeResponse where
  request_id : String
  top_candidates : List WineCandidate
  candidate_count : Nat
  elapsed_ms : ℚ
  raw_response : Option JValue

/-- Round `a / b` (with `b > 0`) to the nearest integer, ties to even. -/
def roundHalfEvenInt (a : Int) (b : Nat) : Int :=
  let fl := Int.fdiv a (b : Int)
  let r := a - fl * (b : Int)
  if 2 * r.toNat < b then fl
  else if b < 2 * r.toNat then fl + 1
  else if fl % 2 = 0 then fl else fl + 1

/-- Python `round(x, 2)` on the exact rational value (the binary-float
representation error of the runtime value is abstracted away). -/
def round2 (q : ℚ) : ℚ :=
  mkRat (roundHalfEvenInt (100 * q.num) q.den) 100

/-- `RecognizeResponse(...)` construction: the pydantic `field_validator`
`sort_by_confidence` re-sorts `top_candidates` by confidence descending
(stable) before the model is built. -/
def mkRecognizeResponse (request_id : String) (top_candidates : List WineCandidate)
    (candidate_count : Nat) (elapsed_ms : ℚ) (raw_response : Option JValue) :
    RecognizeResponse :=
  ⟨request_id, sortDesc top_candidates, candidate_count, elapsed_ms, raw_response⟩

/-- `_save_result_to_file`: when `results_dir` is set and non-blank, append
a file named after the request id with the response, modelled as an
association list of written files. A blank directory disables persistence. -/
def saveResultToFile (resp : RecognizeResponse) (s : Settings)
    (store : List (String × RecognizeResponse)) :
    List (String × RecognizeResponse) :=
  if (pyStrip s.results_dir).isEmpty then store
  else store ++ [(resp.request_id ++ ".json", resp)]

/-- Errors an endpoint reports: 422 for query-parameter validation failures
(FastAPI rejects `top_k` outside `ge=1, le=10`), 502 for upstream failures. -/
inductive HTTPException where
  | unprocessableEntity
  | badGateway (upstream : RapidAPIError)
deriving Repr, DecidableEq

/-- `recognize_file` (`app/api.py:107-187`) after file validation: FastAPI
validates `top_k` against `ge=1, le=10`; the upstream call either raises
`RapidAPIError` (mapped to 502, nothing persisted) or returns
`(candidates, raw, elapsed_ms)`; then `top_k = min(top_k, max_top_k)`,
the candidate list is truncated, the response is assembled with the
truncated list's length as `candidate_count`, and the result is saved. -/
def routeRecognizeFile (s : Settings) (top_k : Int) (include_raw : Bool)
    (upstream : Except RapidAPIError (List WineCandidate × JValue × ℚ))
    (request_id : String) (store : List (String × RecognizeResponse)) :
    Except HTTPException RecognizeResponse × List (String × RecognizeResponse) :=
  if top_k < 1 ∨ 10 < top_k then (.error .unprocessableEntity, store)
  else
    match upstream with
    | .error exc => (.error (.badGateway exc), store)
    | .ok (candidates, raw, elapsed_ms) =>
      let k := min top_k.toNat s.max_top_k
      let top_candidates := candidates.take k
      let resp := mkRecognizeResponse request_id top_candidates
        top_candidates.length (round2 elapsed_ms)
        (if include_raw then some raw else none)
      (.ok resp, saveResultToFile resp s store)

/-- `recognize_url` (`app/api.py:200-256`): identical post-dispatch handling
to `recognize_file` (the source duplicates the logic). -/
def routeRecognizeUrl (s : Settings) (top_k : Int) (include_raw : Bool)
    (upstream : Except RapidAPIError (List WineCandidate × JValue × ℚ))
    (request_id : String) (store : List (String × RecognizeResponse)) :
    Except HTTPException RecognizeResponse × List (String × RecognizeResponse) :=
  if top_k < 1 ∨ 10 < top_k then (.error .unprocessableEntity, store)
  else
    match upstream with
    | .error exc => (.error (.badGateway exc), store)
    | .ok (candidates, raw, elapsed_ms) =>
      let k := min top_k.toNat s.max_top_k
      let top_candidates := candidates.take k
      let resp := mkRecognizeResponse request_id top_candidates
        top_candidates.length (round2 elapsed_ms)
        (if include_raw then some raw else none)
      (.ok resp, saveResultToFile resp s store)

/- ── Well-shapedness: the envelope fragment on which `_parse_candidates`
provably raises no exception ─────────────────────────────────────────────── -/

/-- A `classes` entry that `_parse_candidates` handles without raising:
non-dict entries are always safe (they are skipped); a dict is safe when its
`class` value is a string or falsy (so `.strip()` is applied to a string) and
its `score` value is not a string and, if numeric, lies in `[0, 1]` (so the
pydantic range check cannot fire). -/
def wellShapedClassEntry (cls : JValue) : Bool :=
  match cls with
  | .obj kvs =>
    (match (lookupKey kvs "class").getD .null with
     | .str _ => true
     | v => !pyTruthy v) &&
    (match (lookupKey kvs "score").getD .null with
     | .num q => decide (0 ≤ q ∧ q ≤ 1)
     | .str _ => false
     | _ => true)
  | _ => true

/-- An entity that is processed without raising: a dict whose `classes` value
is a list of well-shaped entries, a mapping (iterated as keys, each skipped
by the dict check), or a string (iterated as characters, likewise skipped). -/
def wellShapedEntity (e : JValue) : Bool :=
  match e with
  | .obj kvs =>
    match (lookupKey kvs "classes").getD (.arr []) with
    | .arr items => items.all wellShapedClassEntry
    | .obj _ => true
    | .str _ => true
    | _ => false
  | _ => false

/-- A result that is processed without raising: a dict whose `status` is a
dict with a string (or absent) `code`; when the code is accepted its
`entities` must be a list of well-shaped entities (otherwise the whole result
is skipped before `entities` is touched). -/
def wellShapedResult (r : JValue) : Bool :=
  match r with
  | .obj kvs =>
    match (lookupKey kvs "status").getD (.obj []) with
    | .obj skvs =>
      match (lookupKey skvs "code").getD (.str "") with
      | .str code =>
        if pyLower code ∈ acceptedCodes then
          match (lookupKey kvs "entities").getD (.arr []) with
          | .arr es => es.all wellShapedEntity
          | _ => false
        else true
      | _ => false
    | _ => false
  | _ => false

/-- An envelope on which `_parse_candidates` provably raises nothing: a JSON
object whose `results` value (if present) is a list of well-shaped results. -/
def wellShapedEnvelope (raw : JValue) : Bool :=
  match raw with
  | .obj kvs =>
    match (lookupKey kvs "results").getD (.arr []) with
    | .arr rs => rs.all wellShapedResult
    | _ => false
  | _ => false

/- ── Concrete data used by the closed evaluations ─────────────────────────── -/

/-- Envelope whose single entity has mapping-shaped `classes`:
label "X" maps to 0.5 and label "Y" maps to 0.8. -/
def envMappingXY : JValue :=
  .obj [("results", .arr [.obj [
    ("status", .obj [("code", .str "ok")]),
    ("entities", .arr [.obj [("kind", .str "wine"),
      ("classes", .obj [("X", .num (mkRat 1 2)), ("Y", .num (mkRat 4 5))])]])]])]

/-- The same label/score pairs as `envMappingXY`, in the list-of-objects
shape. -/
def envListXY : JValue :=
  .obj [("results", .arr [.obj [
    ("status", .obj [("code", .str "ok")]),
    ("entities", .arr [.obj [("kind", .str "wine"),
      ("classes", .arr [.obj [("class", .str "X"), ("score", .num (mkRat 1 2))],
                        .obj [("class", .str "Y"), ("score", .num (mkRat 4 5))]])]])]])]

/-- A JSON-object envelope whose `results` list contains a null entry
(`result.get` is then attribute access on `None`). -/
def envNullEntry : JValue := .obj [("results", .arr [.null])]

/-- A well-shaped envelope exercising the degradation paths: a non-dict
`classes` entry and an empty label are dropped, the rest is kept. -/
def envDegraded : JValue :=
  .obj [("results", .arr [.obj [
    ("status", .obj [("code", .str "OK")]),
    ("entities", .arr [.obj [
      ("classes", .arr [.str "junk",
                        .obj [("class", .str "  "), ("score", .num (mkRat 4 5))],
                        .obj [("class", .str "Real"), ("score", .num (mkRat 7 10))]])]])]])]

/-- Envelope with a confidence tie, to exhibit stability: encounter order is
`P (0.5), Q (0.8), R (0.5)`. -/
def envTies : JValue :=
  .obj [("results", .arr [.obj [
    ("status", .obj [("code", .str "ok")]),
    ("entities", .arr [.obj [
      ("classes", .arr [.obj [("class", .str "P"), ("score", .num (mkRat 1 2))],
                        .obj [("class", .str "Q"), ("score", .num (mkRat 4 5))],
                        .obj [("class", .str "R"), ("score", .num (mkRat 1 2))]])]])]])]

/-- Candidates of `envTies` in encounter order. -/
def tiesPre : List WineCandidate :=
  [⟨"P", mkRat 1 2⟩, ⟨"Q", mkRat 4 5⟩, ⟨"R", mkRat 1 2⟩]

/-- Candidates of `envTies` after the stable descending sort. -/
def tiesSorted : List WineCandidate :=
  [⟨"Q", mkRat 4 5⟩, ⟨"P", mkRat 1 2⟩, ⟨"R", mkRat 1 2⟩]

/-- A result with an explicit `status.code` string. -/
def resultWithCode (c : String) (ents : JValue) : JValue :=
  .obj [("status", .obj [("code", .str c)]), ("entities", ents)]

/-- A result with no `status` field at all. -/
def resultNoStatus (ents : JValue) : JValue :=
  .obj [("entities", ents)]

/-- Default configuration (`max_top_k = 10`, `results_dir = "results"`). -/
def defaultSettings : Settings := ⟨10, "results"⟩

/-- Three candidates, already distinct in confidence. -/
def cs3 : List WineCandidate :=
  [⟨"A", mkRat 9 10⟩, ⟨"B", mkRat 1 2⟩, ⟨"C", mkRat 3 10⟩]

/-- The response `recognize_file` assembles from `cs3` with `top_k = 1`. -/
def respC3 : RecognizeResponse :=
  mkRecognizeResponse "req" (cs3.take 1) (cs3.take 1).length (round2 5) none

/-- The response `recognize_file` assembles from `cs3` with `top_k = 3`. -/
def respC5 : RecognizeResponse :=
  mkRecognizeResponse "req" (cs3.take 3) (cs3.take 3).length (round2 5) none

/-- A dispatcher behaviour that answers HTTP 401 on every attempt. -/
def attempt401 : Nat → AttemptOutcome := fun _ => .response 401 none

/-- A dispatcher behaviour that times out on every attempt. -/
def attemptTimeoutFn : Nat → AttemptOutcome := fun _ => .timeout

/- ── Helper lemmas about the stable descending sort ───────────────────────── -/

theorem sortDesc_sorted (l : List WineCandidate) :
    List.Pairwise confGe (sortDesc l) :=
  List.sorted_insertionSort confGe l

theorem sortDesc_length (l : List WineCandidate) :
    (sortDesc l).length = l.length :=
  (List.perm_insertionSort confGe l).length_eq

theorem filter_orderedInsert_confEq (v : ℚ) (x : WineCandidate)
    (l : List WineCandidate) :
    (List.orderedInsert confGe x l).filter (fun c => decide (c.confidence = v)) =
      (x :: l).filter (fun c => decide (c.confidence = v)) := by
  induction l with
  | nil => rfl
  | cons y ys ih =>
    by_cases hxy : confGe x y
    · simp [List.orderedInsert, hxy]
    · have hlt : x.confidence < y.confidence := lt_of_not_le hxy
      rcases eq_or_ne x.confidence v with hx | hx <;>
        rcases eq_or_ne y.confidence v with hy | hy
      · rw [hx, hy] at hlt
        exact absurd hlt (lt_irrefl v)
      · simp [List.orderedInsert, hxy, List.filter_cons, hx, hy, ih]
      · simp [List.orderedInsert, hxy, List.filter_cons, hx, hy, ih]
      · simp [List.orderedInsert, hxy, List.filter_cons, hx, hy, ih]

theorem filter_sortDesc_confEq (v : ℚ) (l : List WineCandidate) :
    (sortDesc l).filter (fun c => decide (c.confidence = v)) =
      l.filter (fun c => decide (c.confidence = v)) := by
  induction l with
  | nil => rfl
  | cons x xs ih =>
    have h1 := filter_orderedInsert_confEq v x (sortDesc xs)
    simp only [sortDesc, List.insertionSort] at h1 ih ⊢
    rw [h1, List.filter_cons, List.filter_cons, ih]

/- ── C1 ───────────────────────────────────────────────────────────────────── -/

/-- C1: evaluating `_parse_candidates` at the mapping-shaped envelope shows
the divergence: the mapping with X mapping to 0.5 and Y mapping to 0.8
produces no candidates at all (iterating a dict yields its keys, which are
strings and are discarded by the `isinstance(cls, dict)` check), while the
equivalent list-of-objects envelope produces the two candidates
(Y, 0.8), (X, 0.5) the claim — and the repository's own test
`test_parses_dict_classes_format` — expects for both shapes. -/
theorem c1_mapping_classes_eval :
    parseCandidates envMappingXY = .ok [] ∧
    parseCandidates envListXY =
      .ok [⟨"Y", mkRat 4 5⟩, ⟨"X", mkRat 1 2⟩] := by
  exact ⟨by decide, by decide⟩

/- ── C2: exception analysis of the normalizer ─────────────────────────────── -/

theorem score_coercion_in_range (sr : JValue)
    (hs : (match sr with
           | .num q => decide (0 ≤ q ∧ q ≤ 1)
           | .str _ => false
           | _ => true) = true) :
    0 ≤ (pyFloat (if pyTruthy sr then sr else .num 0)).getD 0 ∧
      (pyFloat (if pyTruthy sr then sr else .num 0)).getD 0 ≤ 1 := by
  cases sr with
  | null => refine ⟨le_refl 0, zero_le_one⟩
  | bool b =>
    cases b with
    | false => exact ⟨le_refl 0, zero_le_one⟩
    | true => exact ⟨zero_le_one, le_refl 1⟩
  | num q =>
    have hq : 0 ≤ q ∧ q ≤ 1 := of_decide_eq_true hs
    by_cases ht : pyTruthy (JValue.num q) = true
    · simpa [ht, pyFloat] using hq
    · simp [ht, pyFloat]
  | str s => simp at hs
  | arr xs =>
    by_cases ht : pyTruthy (JValue.arr xs) = true
    · simp [ht, pyFloat]
    · simp [ht, pyFloat]
  | obj kvs =>
    by_cases ht : pyTruthy (JValue.obj kvs) = true
    · simp [ht, pyFloat]
    · simp [ht, pyFloat]

theorem parseClassEntry_ok {cls : JValue} (h : wellShapedClassEntry cls = true) :
    ∃ o, parseClassEntry cls = .ok o := by
  cases cls with
  | null => exact ⟨none, rfl⟩
  | bool b => exact ⟨none, rfl⟩
  | num q => exact ⟨none, rfl⟩
  | str s => exact ⟨none, rfl⟩
  | arr xs => exact ⟨none, rfl⟩
  | obj kvs =>
    simp only [wellShapedClassEntry, Bool.and_eq_true] at h
    obtain ⟨hl, hs⟩ := h
    simp only [parseClassEntry]
    have hstr : ∃ s, (if pyTruthy ((lookupKey kvs "class").getD .null)
        then (lookupKey kvs "class").getD .null else JValue.str "") =
        JValue.str s := by
      cases hv : (lookupKey kvs "class").getD .null with
      | str s =>
        by_cases ht : pyTruthy (JValue.str s) = true
        · exact ⟨s, by rw [if_pos ht]⟩
        · exact ⟨"", by rw [if_neg ht]⟩
      | null => exact ⟨"", by rw [if_neg (by simp [pyTruthy])]⟩
      | bool b =>
        rw [hv] at hl
        simp only [Bool.not_eq_true'] at hl
        exact ⟨"", by rw [if_neg (by simp [hl])]⟩
      | num q =>
        rw [hv] at hl
        simp only [Bool.not_eq_true'] at hl
        exact ⟨"", by rw [if_neg (by simp [hl])]⟩
      | arr xs =>
        rw [hv] at hl
        simp only [Bool.not_eq_true'] at hl
        exact ⟨"", by rw [if_neg (by simp [hl])]⟩
      | obj kvs2 =>
        rw [hv] at hl
        simp only [Bool.not_eq_true'] at hl
        exact ⟨"", by rw [if_neg (by simp [hl])]⟩
    obtain ⟨s, hscr⟩ := hstr
    rw [hscr]
    dsimp only
    by_cases hemp : (pyStrip s).isEmpty = true
    · exact ⟨none, by rw [if_pos hemp]⟩
    · obtain ⟨h0, h1⟩ := score_coercion_in_range ((lookupKey kvs "score").getD .null) hs
      refine ⟨some ⟨pyStrip s,
        (pyFloat (if pyTruthy ((lookupKey kvs "score").getD .null)
          then (lookupKey kvs "score").getD .null else .num 0)).getD 0⟩, ?_⟩
      rw [if_neg hemp, mkWineCandidate, if_pos ⟨h0, h1⟩]

theorem parseClasses_ok {items : List JValue}
    (h : items.all wellShapedClassEntry = true) :
    ∃ cs, parseClasses items = .ok cs := by
  induction items with
  | nil => exact ⟨[], rfl⟩
  | cons c rest ih =>
    rw [List.all_cons, Bool.and_eq_true] at h
    obtain ⟨o, ho⟩ := parseClassEntry_ok h.1
    obtain ⟨cs, hcs⟩ := ih h.2
    cases o with
    | some c0 => exact ⟨c0 :: cs, by simp only [parseClasses, ho, hcs]⟩
    | none => exact ⟨cs, by simp only [parseClasses, ho, hcs]⟩

theorem wellShapedClassEntry_str (s : String) :
    wellShapedClassEntry (.str s) = true := rfl

theorem parseEntity_ok {e : JValue} (h : wellShapedEntity e = true) :
    ∃ cs, parseEntity e = .ok cs := by
  cases e with
  | null => simp [wellShapedEntity] at h
  | bool b => simp [wellShapedEntity] at h
  | num q => simp [wellShapedEntity] at h
  | str s => simp [wellShapedEntity] at h
  | arr xs => simp [wellShapedEntity] at h
  | obj kvs =>
    simp only [wellShapedEntity] at h
    simp only [parseEntity, pyGet]
    cases hv : (lookupKey kvs "classes").getD (.arr []) with
    | arr items =>
      rw [hv] at h
      obtain ⟨cs, hcs⟩ := parseClasses_ok h
      exact ⟨cs, by simp only [pyIter]; exact hcs⟩
    | obj kvs2 =>
      have hall : ((kvs2.map fun kv => JValue.str kv.1).all
          wellShapedClassEntry) = true := by
        rw [List.all_eq_true]
        intro x hx
        obtain ⟨kv, _, hkv⟩ := List.mem_map.mp hx
        rw [← hkv]
        rfl
      obtain ⟨cs, hcs⟩ := parseClasses_ok hall
      exact ⟨cs, by simp only [pyIter]; exact hcs⟩
    | str s =>
      have hall : ((s.data.map fun c => JValue.str (String.mk [c])).all
          wellShapedClassEntry) = true := by
        rw [List.all_eq_true]
        intro x hx
        obtain ⟨c, _, hc⟩ := List.mem_map.mp hx
        rw [← hc]
        rfl
      obtain ⟨cs, hcs⟩ := parseClasses_ok hall
      exact ⟨cs, by simp only [pyIter]; exact hcs⟩
    | null => rw [hv] at h; simp at h
    | bool b => rw [hv] at h; simp at h
    | num q => rw [hv] at h; simp at h

theorem parseEntities_ok {es : List JValue}
    (h : es.all wellShapedEntity = true) :
    ∃ cs, parseEntities es = .ok cs := by
  induction es with
  | nil => exact ⟨[], rfl⟩
  | cons e rest ih =>
    rw [List.all_cons, Bool.and_eq_true] at h
    obtain ⟨cs, hcs⟩ := parseEntity_ok h.1
    obtain ⟨rest', hrest⟩ := ih h.2
    exact ⟨cs ++ rest', by simp only [parseEntities, hcs, hrest]⟩

theorem parseResult_ok {r : JValue} (h : wellShapedResult r = true) :
    ∃ cs, parseResult r = .ok cs := by
  cases r with
  | null => simp [wellShapedResult] at h
  | bool b => simp [wellShapedResult] at h
  | num q => simp [wellShapedResult] at h
  | str s => simp [wellShapedResult] at h
  | arr xs => simp [wellShapedResult] at h
  | obj kvs =>
    simp only [wellShapedResult] at h
    simp only [parseResult, pyGet]
    cases hst : (lookupKey kvs "status").getD (.obj []) with
    | obj skvs =>
      rw [hst] at h
      dsimp only at h
      simp only [pyGet]
      cases hcd : (lookupKey skvs "code").getD (.str "") with
      | str code =>
        rw [hcd] at h
        dsimp only at h
        dsimp only
        by_cases hacc : pyLower code ∈ acceptedCodes
        · rw [if_pos hacc] at h
          rw [if_pos hacc]
          cases hent : (lookupKey kvs "entities").getD (.arr []) with
          | arr es =>
            rw [hent] at h
            obtain ⟨cs, hcs⟩ := parseEntities_ok h
            exact ⟨cs, by simp only [pyIter]; exact hcs⟩
          | null => rw [hent] at h; simp at h
          | bool b => rw [hent] at h; simp at h
          | num q => rw [hent] at h; simp at h
          | str s => rw [hent] at h; simp at h
          | obj kvs2 => rw [hent] at h; simp at h
        · rw [if_neg hacc]
          exact ⟨[], rfl⟩
      | null => rw [hcd] at h; simp at h
      | bool b => rw [hcd] at h; simp at h
      | num q => rw [hcd] at h; simp at h
      | arr xs => rw [hcd] at h; simp at h
      | obj kvs2 => rw [hcd] at h; simp at h
    | null => rw [hst] at h; simp at h
    | bool b => rw [hst] at h; simp at h
    | num q => rw [hst] at h; simp at h
    | str s => rw [hst] at h; simp at h
    | arr xs => rw [hst] at h; simp at h

theorem parseResults_ok {rs : List JValue}
    (h : rs.all wellShapedResult = true) :
    ∃ cs, parseResults rs = .ok cs := by
  induction rs with
  | nil => exact ⟨[], rfl⟩
  | cons r rest ih =>
    rw [List.all_cons, Bool.and_eq_true] at h
    obtain ⟨cs, hcs⟩ := parseResult_ok h.1
    obtain ⟨rest', hrest⟩ := ih h.2
    exact ⟨cs ++ rest', by simp only [parseResults, hcs, hrest]⟩

/-- C2 (counterexample): the normalizer is not exception-free on arbitrary
JSON-object envelopes. On the envelope whose `results` list contains a null
entry, `result.get("status", ...)` is attribute access on `None` and raises
`AttributeError`. -/
theorem c2_counterexample :
    parseCandidates envNullEntry = .error .attributeError := by decide

/-- C2 (amended): the normalizer raises no exception on any well-shaped
envelope — a JSON object whose `results` entries are dicts with dict
`status`, string (or absent) `code`, list `entities` of dicts, and whose
dict-shaped `classes` entries carry a string-or-falsy label and a
non-string score that, when numeric, lies in `[0, 1]`. Within that shape,
offending entries (non-dict class entries, empty labels) are dropped rather
than raising, and a missing or empty `results` field yields `.ok`. -/
theorem c2_amended_normalizer_total (raw : JValue)
    (h : wellShapedEnvelope raw = true) :
    ∃ cs, parseCandidates raw = .ok cs := by
  cases raw with
  | null => simp [wellShapedEnvelope] at h
  | bool b => simp [wellShapedEnvelope] at h
  | num q => simp [wellShapedEnvelope] at h
  | str s => simp [wellShapedEnvelope] at h
  | arr xs => simp [wellShapedEnvelope] at h
  | obj kvs =>
    simp only [wellShapedEnvelope] at h
    simp only [parseCandidates, collectCandidates, pyGet]
    cases hres : (lookupKey kvs "results").getD (.arr []) with
    | arr rs =>
      rw [hres] at h
      obtain ⟨cs, hcs⟩ := parseResults_ok h
      exact ⟨sortDesc cs, by simp only [pyIter]; rw [hcs]; rfl⟩
    | null => rw [hres] at h; simp at h
    | bool b => rw [hres] at h; simp at h
    | num q => rw [hres] at h; simp at h
    | str s => rw [hres] at h; simp at h
    | obj kvs2 => rw [hres] at h; simp at h

/-- C2 (witness): the amended theorem applied to a concrete well-shaped
envelope that exercises the degradation paths. -/
theorem c2_witness :
    wellShapedEnvelope envDegraded = true ∧
    ∃ cs, parseCandidates envDegraded = .ok cs :=
  ⟨by decide, c2_amended_normalizer_total envDegraded (by decide)⟩

/- ── C3 ───────────────────────────────────────────────────────────────────── -/

/-- C3 (counterexample): with three candidates from the normalizer and
`top_k = 1`, the returned `candidate_count` is 1 — the truncated length —
not 3, the number of candidates produced before truncation. -/
theorem c3_counterexample :
    ((routeRecognizeFile defaultSettings 1 false (.ok (cs3, .obj [], 5))
        "req" []).1.map (fun r => r.candidate_count)) = .ok 1 ∧
    cs3.length = 3 := ⟨rfl, rfl⟩

/-- C3 (amended): `candidate_count` equals the number of candidates after
the orchestrator's truncation — the length of the returned list, that is,
the minimum of the effective limit and the full candidate count. -/
theorem c3_amended_count_is_truncated (s : Settings) (tk : Int) (inc : Bool)
    (cands : List WineCandidate) (raw : JValue) (t : ℚ) (rid : String)
    (store : List (String × RecognizeResponse)) (resp : RecognizeResponse)
    (store2 : List (String × RecognizeResponse))
    (h : routeRecognizeFile s tk inc (.ok (cands, raw, t)) rid store =
      (.ok resp, store2)) :
    resp.candidate_count = resp.top_candidates.length ∧
    resp.candidate_count = min (min tk.toNat s.max_top_k) cands.length := by
  unfold routeRecognizeFile at h
  split at h
  · simp at h
  · dsimp only at h
    rw [Prod.mk.injEq] at h
    obtain ⟨h1, _⟩ := h
    rw [Except.ok.injEq] at h1
    subst h1
    constructor
    · simp [mkRecognizeResponse, sortDesc_length]
    · simp [mkRecognizeResponse, List.length_take]

/-- C3 (witness): the amended claim at the concrete truncation example. -/
theorem c3_witness :
    routeRecognizeFile defaultSettings 1 false (.ok (cs3, .obj [], 5)) "req" [] =
      (.ok respC3, [("req.json", respC3)]) ∧
    (respC3.candidate_count = respC3.top_candidates.length ∧
      respC3.candidate_count =
        min (min (Int.toNat 1) defaultSettings.max_top_k) cs3.length) :=
  ⟨rfl, c3_amended_count_is_truncated defaultSettings 1 false cs3 (.obj []) 5
    "req" [] respC3 [("req.json", respC3)] rfl⟩

/- ── C4 ───────────────────────────────────────────────────────────────────── -/

/-- C4: the normalizer's output is sorted by confidence descending and the
sort is stable — for every confidence value, the subsequence of candidates
at that confidence equals the one collected in provider encounter order;
moreover every constructed `RecognizeResponse` carries a list sorted the
same way (the pydantic validator re-sorts stably). -/
theorem c4_sorted_stable :
    (∀ raw cs pre, parseCandidates raw = .ok cs →
      collectCandidates raw = .ok pre →
      List.Pairwise confGe cs ∧
      ∀ v, cs.filter (fun c => decide (c.confidence = v)) =
        pre.filter (fun c => decide (c.confidence = v))) ∧
    (∀ rid tops cnt t rr,
      List.Pairwise confGe
        ((mkRecognizeResponse rid tops cnt t rr).top_candidates)) := by
  constructor
  · intro raw cs pre hp hc
    rw [parseCandidates, hc] at hp
    simp only [Except.map] at hp
    rw [Except.ok.injEq] at hp
    subst hp
    exact ⟨sortDesc_sorted pre, fun v => filter_sortDesc_confEq v pre⟩
  · intro rid tops cnt t rr
    exact sortDesc_sorted tops

/-- C4 (witness): with encounter order P (0.5), Q (0.8), R (0.5), the output
is sorted and the tie P-before-R is preserved. -/
theorem c4_witness :
    List.Pairwise confGe tiesSorted ∧
    tiesSorted.filter (fun c => decide (c.confidence = mkRat 1 2)) =
      tiesPre.filter (fun c => decide (c.confidence = mkRat 1 2)) := by
  have h := c4_sorted_stable.1 envTies tiesSorted tiesPre (by decide) (by decide)
  exact ⟨h.1, h.2 (mkRat 1 2)⟩

/- ── C5 ───────────────────────────────────────────────────────────────────── -/

/-- C5: a successful response never carries more than
`min top_k max_top_k` candidates, on both endpoints. -/
theorem c5_limit_cap (s : Settings) (tk : Int) (inc : Bool)
    (up : Except RapidAPIError (List WineCandidate × JValue × ℚ))
    (rid : String) (store : List (String × RecognizeResponse))
    (resp : RecognizeResponse) (store2 : List (String × RecognizeResponse)) :
    (routeRecognizeFile s tk inc up rid store = (.ok resp, store2) →
      resp.top_candidates.length ≤ min tk.toNat s.max_top_k) ∧
    (routeRecognizeUrl s tk inc up rid store = (.ok resp, store2) →
      resp.top_candidates.length ≤ min tk.toNat s.max_top_k) := by
  constructor <;>
    · intro h
      simp only [routeRecognizeFile, routeRecognizeUrl] at h
      split at h
      · simp at h
      · cases up with
        | error e => simp at h
        | ok v =>
          obtain ⟨cands, raw, t⟩ := v
          dsimp only at h
          rw [Prod.mk.injEq] at h
          obtain ⟨h1, _⟩ := h
          rw [Except.ok.injEq] at h1
          subst h1
          simp only [mkRecognizeResponse, sortDesc_length, List.length_take]
          exact le_trans (min_le_left _ _) (le_refl _)

/-- C5 (witness): the cap at the concrete three-candidate example. -/
theorem c5_witness :
    routeRecognizeFile defaultSettings 3 false (.ok (cs3, .obj [], 5)) "req" [] =
      (.ok respC5, [("req.json", respC5)]) ∧
    respC5.top_candidates.length ≤ min (Int.toNat 3) defaultSettings.max_top_k :=
  ⟨rfl, (c5_limit_cap defaultSettings 3 false (.ok (cs3, .obj [], 5)) "req" []
      respC5 [("req.json", respC5)]).1 rfl⟩

/- ── C6 ───────────────────────────────────────────────────────────────────── -/

/-- C6 (counterexample): a request with `top_k = 0` is rejected by the
query-parameter validation (`ge=1`) as 422 unprocessable on both endpoints;
it does not succeed with an empty candidate list. -/
theorem c6_counterexample :
    routeRecognizeFile defaultSettings 0 false (.ok ([], .obj [], 5)) "req" [] =
      (.error .unprocessableEntity, []) ∧
    routeRecognizeUrl defaultSettings 0 false (.ok ([], .obj [], 5)) "req" [] =
      (.error .unprocessableEntity, []) := ⟨rfl, rfl⟩

/-- C6 (amended): a caller-requested limit of zero is rejected by parameter
validation as 422 unprocessable (limits are constrained to 1..10); the
handler body never runs and nothing is persisted. -/
theorem c6_amended_zero_limit_rejected (s : Settings) (inc : Bool)
    (up : Except RapidAPIError (List WineCandidate × JValue × ℚ))
    (rid : String) (store : List (String × RecognizeResponse)) :
    routeRecognizeFile s 0 inc up rid store =
      (.error .unprocessableEntity, store) ∧
    routeRecognizeUrl s 0 inc up rid store =
      (.error .unprocessableEntity, store) := by
  constructor
  · unfold routeRecognizeFile
    rw [if_pos (Or.inl (show (0 : Int) < 1 by norm_num))]
  · unfold routeRecognizeUrl
    rw [if_pos (Or.inl (show (0 : Int) < 1 by norm_num))]

/- ── C7 ───────────────────────────────────────────────────────────────────── -/

/-- C7: a non-200 status outside the retryable set on attempt 1 makes the
dispatcher fail immediately with an upstream status error carrying that
numeric code, after exactly one attempt, regardless of `max_retries`. -/
theorem c7_terminal_status_fails_immediately
    (f : Nat → AttemptOutcome) (maxRetries : Nat) (s : Nat) (b : Option JValue)
    (h1 : f 1 = .response s b) (h200 : s ≠ 200)
    (hmem : s ∉ retryableStatusCodes) :
    callWithRetry f maxRetries = (.error (.api (.status s)), 1) := by
  simp only [callWithRetry, callWithRetryAux, h1]
  rw [if_neg h200, if_neg (fun hc => hmem hc.1)]

/-- C7 (witness): a 401 on attempt 1 with `max_retries = 5` fails after one
attempt with the status error carrying 401. -/
theorem c7_witness :
    attempt401 1 = .response 401 none ∧ 401 ≠ 200 ∧
    401 ∉ retryableStatusCodes ∧
    callWithRetry attempt401 5 = (.error (.api (.status 401)), 1) :=
  ⟨rfl, by decide, by decide,
    c7_terminal_status_fails_immediately attempt401 5 401 none rfl
      (by decide) (by decide)⟩

/- ── C8 ───────────────────────────────────────────────────────────────────── -/

theorem retryable_ne_200 {s : Nat} (h : s ∈ retryableStatusCodes) :
    s ≠ 200 := by
  fin_cases h <;> decide

theorem c8_aux (f : Nat → AttemptOutcome) (lastExc : Option RapidAPIError)
    (h2 : isRetryableOutcome (f 2) = true) :
    callWithRetryAux f 2 1 2 lastExc =
      (.error (.api (lastAttemptError (f 2))), 2) := by
  cases ho : f 2 with
  | response s b =>
    rw [ho] at h2
    simp only [isRetryableOutcome] at h2
    have hmem : s ∈ retryableStatusCodes := of_decide_eq_true h2
    have h200 : s ≠ 200 := retryable_ne_200 hmem
    simp only [callWithRetryAux, ho]
    rw [if_neg h200, if_neg (fun hc => absurd hc.2 (lt_irrefl 2))]
    rfl
  | timeout =>
    simp only [callWithRetryAux, ho]
    simp [lastAttemptError]
  | connError =>
    simp only [callWithRetryAux, ho]
    simp [lastAttemptError]

/-- C8: with `max_retries = 1` and retryable outcomes on both attempts, the
dispatcher performs exactly 2 attempts and surfaces the second attempt's
error as the terminal error. -/
theorem c8_exactly_two_attempts (f : Nat → AttemptOutcome)
    (h1 : isRetryableOutcome (f 1) = true)
    (h2 : isRetryableOutcome (f 2) = true) :
    callWithRetry f 1 = (.error (.api (lastAttemptError (f 2))), 2) := by
  cases ho1 : f 1 with
  | response s b =>
    rw [ho1] at h1
    simp only [isRetryableOutcome] at h1
    have hmem : s ∈ retryableStatusCodes := of_decide_eq_true h1
    have h200 : s ≠ 200 := retryable_ne_200 hmem
    simp only [callWithRetry, callWithRetryAux, ho1]
    rw [if_neg h200, if_pos ⟨hmem, by norm_num⟩]
    exact c8_aux f (some (.status s)) h2
  | timeout =>
    simp only [callWithRetry, callWithRetryAux, ho1]
    rw [if_neg (by norm_num : ¬(1 = 2))]
    exact c8_aux f (some .timeout) h2
  | connError =>
    simp only [callWithRetry, callWithRetryAux, ho1]
    rw [if_neg (by norm_num : ¬(1 = 2))]
    exact c8_aux f (some .transport) h2

/-- C8 (witness): timeouts on both attempts with `max_retries = 1` fail
after exactly two attempts with the second attempt's timeout error. -/
theorem c8_witness :
    isRetryableOutcome (attemptTimeoutFn 1) = true ∧
    isRetryableOutcome (attemptTimeoutFn 2) = true ∧
    callWithRetry attemptTimeoutFn 1 =
      (.error (.api (lastAttemptError (attemptTimeoutFn 2))), 2) :=
  ⟨rfl, rfl, c8_exactly_two_attempts attemptTimeoutFn rfl rfl⟩

/- ── C9 ───────────────────────────────────────────────────────────────────── -/

/-- C9: a result whose `status.code` is present and, lowercased, outside the
accepted set contributes zero candidates — removing it from the results list
leaves the parse unchanged — while a result with a missing or empty code is
processed exactly like one with code "ok". -/
theorem c9_status_code_skip (c : String) (ents : JValue) (rest : List JValue)
    (hbad : pyLower c ∉ acceptedCodes) :
    parseResult (resultWithCode c ents) = .ok [] ∧
    parseResults (resultWithCode c ents :: rest) = parseResults rest ∧
    parseResult (resultNoStatus ents) = parseResult (resultWithCode "" ents) ∧
    parseResult (resultNoStatus ents) = parseResult (resultWithCode "ok" ents) := by
  have hskip : parseResult (resultWithCode c ents) = .ok [] := by
    simp [parseResult, resultWithCode, pyGet, lookupKey]
    exact fun hacc => absurd hacc hbad
  refine ⟨hskip, ?_, ?_, ?_⟩
  · rw [parseResults, hskip]
    cases hr : parseResults rest with
    | ok cs => simp
    | error e => rfl
  · rfl
  · rfl

/-- C9 (witness): the code "error" is skipped with zero contribution, and
missing/empty codes process like "ok", at a concrete result. -/
theorem c9_witness :
    pyLower "error" ∉ acceptedCodes ∧
    parseResult (resultWithCode "error" (.arr [])) = .ok [] ∧
    parseResults [resultWithCode "error" (.arr [])] = parseResults [] ∧
    parseResult (resultNoStatus (.arr [])) =
      parseResult (resultWithCode "" (.arr [])) ∧
    parseResult (resultNoStatus (.arr [])) =
      parseResult (resultWithCode "ok" (.arr [])) := by
  have h := c9_status_code_skip "error" (.arr []) [] (by decide)
  exact ⟨by decide, h.1, h.2.1, h.2.2.1, h.2.2.2⟩

/- ── C10 ──────────────────────────────────────────────────────────────────── -/

/-- C10: when the upstream call fails with a classified error, both
endpoints produce an error (no response value is constructed) and the
persisted store is left exactly as it was — nothing is written. -/
theorem c10_no_persist_on_upstream_error (s : Settings) (tk : Int) (inc : Bool)
    (e : RapidAPIError) (rid : String)
    (store : List (String × RecognizeResponse)) :
    (∃ err, (routeRecognizeFile s tk inc (.error e) rid store).1 = .error err) ∧
    (routeRecognizeFile s tk inc (.error e) rid store).2 = store ∧
    (∃ err, (routeRecognizeUrl s tk inc (.error e) rid store).1 = .error err) ∧
    (routeRecognizeUrl s tk inc (.error e) rid store).2 = store := by
  by_cases hv : tk < 1 ∨ 10 < tk
  · refine ⟨⟨.unprocessableEntity, ?_⟩, ?_, ⟨.unprocessableEntity, ?_⟩, ?_⟩ <;>
      simp [routeRecognizeFile, routeRecognizeUrl, hv]
  · refine ⟨⟨.badGateway e, ?_⟩, ?_, ⟨.badGateway e, ?_⟩, ?_⟩ <;>
      simp [routeRecognizeFile, routeRecognizeUrl, hv]
